import Mathlib

/-
Verification of the 3D projection and depth-sorted rendering pipeline of
`multivariable-chain-rule-standalone.js` (class `MultivariableChainRuleViz`).

The JavaScript is shallowly embedded over the real numbers: each method of the
class becomes a Lean function on an explicit state record.  Canvas drawing
calls are modelled by the data they would draw (projected points, triangle
lists in draw order, arrowhead stroke endpoints); whether a handler invokes
`this.render()` is modelled by a returned Boolean flag.
-/

namespace ChainRuleViz

/-- Camera state: `cameraAngleX` is the pitch angle, `cameraAngleY` the yaw
angle, `cameraDistance` the camera distance (constructor lines 10-12). -/
structure CameraState where
  cameraAngleX : ℝ
  cameraAngleY : ℝ
  cameraDistance : ℝ


/-- The record returned by `project3D`: screen coordinates and depth. -/
structure ScreenPoint where
  x : ℝ
  y : ℝ
  depth : ℝ


/-- Method `project3D(x, y, z)` (source lines 80-104): rotate around the Y axis by
`cameraAngleY`, rotate around the X axis by `cameraAngleX`, add the camera
distance to z, then perspective-divide with focal constant 600.  `W` and `H`
are `canvas.width` and `canvas.height`. -/
noncomputable def project3D (cam : CameraState) (W H : ℝ) (x y z : ℝ) : ScreenPoint :=
  let cosY := Real.cos cam.cameraAngleY
  let sinY := Real.sin cam.cameraAngleY
  let x1 := x * cosY - z * sinY
  let z1 := x * sinY + z * cosY
  let y1 := y
  let cosX := Real.cos cam.cameraAngleX
  let sinX := Real.sin cam.cameraAngleX
  let y2 := y1 * cosX - z1 * sinX
  let z2 := y1 * sinX + z1 * cosX
  let x2 := x1
  let z2' := z2 + cam.cameraDistance
  let scale := 600 / z2'
  { x := W / 2 + x2 * scale, y := H / 2 - y2 * scale, depth := z2' }

/-- Standard 2D rotation of a pair by an angle, as the spec describes it. -/
noncomputable def rot2 (θ : ℝ) (p : ℝ × ℝ) : ℝ × ℝ :=
  (p.1 * Real.cos θ - p.2 * Real.sin θ, p.1 * Real.sin θ + p.2 * Real.cos θ)

/-- The camera projection as the spec words it (§4.1): a standard 2D rotation
of (x,z) by the yaw angle with y unchanged, then a standard 2D rotation of
(y,z) by the pitch angle with x unchanged, then adding the camera distance to
z giving the depth, scale = 600/depth, screenX = centerX + x·scale,
screenY = centerY − y·scale. -/
noncomputable def projectSpec (cam : CameraState) (W H : ℝ) (x y z : ℝ) : ScreenPoint :=
  let r1 := rot2 cam.cameraAngleY (x, z)
  let r2 := rot2 cam.cameraAngleX (y, r1.2)
  let depth := r2.2 + cam.cameraDistance
  let scale := 600 / depth
  { x := W / 2 + r1.1 * scale, y := H / 2 - r2.1 * scale, depth := depth }

/-- Claim C1: `project3D` is exactly the spec's pipeline — yaw rotation of
(x,z), pitch rotation of (y,z), camera-distance offset giving the depth,
scale 600/depth, screenX = centerX + x·scale, screenY = centerY − y·scale —
and in particular with yaw = 0, pitch = 0, distance = 8 the origin projects
exactly to the viewport center with depth 8. -/
theorem project3D_matches_spec (cam : CameraState) (W H x y z : ℝ) :
    project3D cam W H x y z = projectSpec cam W H x y z ∧
    project3D ⟨0, 0, 8⟩ W H 0 0 0 = ⟨W / 2, H / 2, 8⟩ := by
  constructor
  · rfl
  · simp only [project3D]
    norm_num

/-- A world-space point, as the `{x, y, z}` objects of the mesh code. -/
structure Point3 where
  x : ℝ
  y : ℝ
  z : ℝ

/-- A mesh triangle `{p1, p2, p3}` (source lines 187-197). -/
structure Tri where
  p1 : Point3
  p2 : Point3
  p3 : Point3

/-- An entry of `this.functions`: a scalar field with its two partial
derivatives and a display name (source lines 34-59). -/
structure SurfaceFun where
  f : ℝ → ℝ → ℝ
  dfdx : ℝ → ℝ → ℝ
  dfdy : ℝ → ℝ → ℝ
  name : String

/-- The `paraboloid` entry of `this.functions` (source lines 35-40). -/
noncomputable def paraboloidFn : SurfaceFun where
  f := fun x y => x * x + y * y
  dfdx := fun x _ => 2 * x
  dfdy := fun _ y => 2 * y
  name := "z = x^2 + y^2"

/-- The `saddle` entry of `this.functions` (source lines 41-46). -/
noncomputable def saddleFn : SurfaceFun where
  f := fun x y => x * x - y * y
  dfdx := fun x _ => 2 * x
  dfdy := fun _ y => -(2 * y)
  name := "z = x^2 - y^2"

/-- The `waves` entry of `this.functions` (source lines 47-52). -/
noncomputable def wavesFn : SurfaceFun where
  f := fun x y => Real.sin x * Real.cos y
  dfdx := fun x y => Real.cos x * Real.cos y
  dfdy := fun x y => -Real.sin x * Real.sin y
  name := "z = sin(x)cos(y)"

/-- The `hill` entry of `this.functions` (source lines 53-58). -/
noncomputable def hillFn : SurfaceFun where
  f := fun x y => 3 / (1 + x * x + y * y)
  dfdx := fun x y => -(6 * x) / (1 + x * x + y * y) ^ 2
  dfdy := fun x y => -(6 * y) / (1 + x * x + y * y) ^ 2
  name := "z = 3/(1+x^2+y^2)"

/-- The `this.functions` table (source lines 34-59), as an association list
keyed by the function identifier strings. -/
noncomputable def functionsTable : List (String × SurfaceFun) :=
  [("paraboloid", paraboloidFn), ("saddle", saddleFn),
   ("waves", wavesFn), ("hill", hillFn)]

/-- Grid resolution of `drawSurface` (source line 167). -/
def resolution : ℕ := 25

/-- Half-range of the square domain of `drawSurface` (source line 168). -/
def meshRange : ℝ := 2

/-- Grid step `(2 * range) / resolution` of `drawSurface` (source line 169). -/
noncomputable def meshStep : ℝ := (2 * meshRange) / (resolution : ℝ)

/-- First triangle of grid cell (i, j): vertices (x1,y1), (x2,y1), (x1,y2)
with z sampled from the field (source lines 187-191). -/
noncomputable def cellTriA (f : ℝ → ℝ → ℝ) (i j : ℕ) : Tri :=
  let x1 := -meshRange + (i : ℝ) * meshStep
  let y1 := -meshRange + (j : ℝ) * meshStep
  let x2 := x1 + meshStep
  let y2 := y1 + meshStep
  { p1 := ⟨x1, y1, f x1 y1⟩, p2 := ⟨x2, y1, f x2 y1⟩, p3 := ⟨x1, y2, f x1 y2⟩ }

/-- Second triangle of grid cell (i, j): vertices (x2,y1), (x2,y2), (x1,y2),
sharing the (x2,y1)-(x1,y2) diagonal with the first (source lines 193-197). -/
noncomputable def cellTriB (f : ℝ → ℝ → ℝ) (i j : ℕ) : Tri :=
  let x1 := -meshRange + (i : ℝ) * meshStep
  let y1 := -meshRange + (j : ℝ) * meshStep
  let x2 := x1 + meshStep
  let y2 := y1 + meshStep
  { p1 := ⟨x2, y1, f x2 y1⟩, p2 := ⟨x2, y2, f x2 y2⟩, p3 := ⟨x1, y2, f x1 y2⟩ }

/-- The full triangle list built by `drawSurface`'s nested loops
(source lines 172-199): for each of the 25×25 grid cells, two triangles. -/
noncomputable def meshTriangles (f : ℝ → ℝ → ℝ) : List Tri :=
  (List.range resolution).flatMap fun i =>
    (List.range resolution).flatMap fun j =>
      [cellTriA f i j, cellTriB f i j]

/-- The (non-normalized) triangle normal: the cross product of the edge
vectors P2−P1 and P3−P1 (source lines 219-228). -/
def triNormal (t : Tri) : Point3 :=
  let v1x := t.p2.x - t.p1.x
  let v1y := t.p2.y - t.p1.y
  let v1z := t.p2.z - t.p1.z
  let v2x := t.p3.x - t.p1.x
  let v2y := t.p3.y - t.p1.y
  let v2z := t.p3.z - t.p1.z
  { x := v1y * v2z - v1z * v2y
    y := v1z * v2x - v1x * v2z
    z := v1x * v2y - v1y * v2x }

/-- The per-triangle light intensity `lightDot` (source line 230):
`max(0.2, (nx + ny + nz*2) / sqrt(nx² + ny² + nz²) * 0.5 + 0.5)`. -/
noncomputable def lightIntensity (t : Tri) : ℝ :=
  let n := triNormal t
  max 0.2 ((n.x + n.y + n.z * 2) / Real.sqrt (n.x * n.x + n.y * n.y + n.z * n.z) * 0.5 + 0.5)

theorem meshTriangles_mem {f : ℝ → ℝ → ℝ} {t : Tri} (h : t ∈ meshTriangles f) :
    ∃ i j, i < 25 ∧ j < 25 ∧ (t = cellTriA f i j ∨ t = cellTriB f i j) := by
  simp only [meshTriangles, List.mem_flatMap, List.mem_range, resolution] at h
  obtain ⟨i, hi, j, hj, ht⟩ := h
  simp only [List.mem_cons, List.mem_singleton, List.not_mem_nil, or_false] at ht
  exact ⟨i, j, hi, hj, ht⟩

/-- Claim C10: on every call the mesh builder produces exactly 2·25·25 = 1250
triangles — the resolution is 25 cells per side — every vertex satisfies
z = f(x, y), and every triangle is one of the two diagonal-split triangles of
some grid cell (i, j) with i, j < 25. -/
theorem meshTriangles_shape (f : ℝ → ℝ → ℝ) :
    (meshTriangles f).length = 2 * 25 * 25 ∧
    List.Forall (fun t =>
      (t.p1.z = f t.p1.x t.p1.y ∧ t.p2.z = f t.p2.x t.p2.y ∧
        t.p3.z = f t.p3.x t.p3.y) ∧
      ∃ i j, i < 25 ∧ j < 25 ∧ (t = cellTriA f i j ∨ t = cellTriB f i j))
      (meshTriangles f) := by
  constructor
  · simp [meshTriangles, List.length_flatMap, resolution, Function.comp_def,
      List.map_const', List.sum_replicate]
  · rw [List.forall_iff_forall_mem]
    intro t ht
    obtain ⟨i, j, hi, hj, hc⟩ := meshTriangles_mem ht
    refine ⟨?_, i, j, hi, hj, hc⟩
    rcases hc with h | h <;> subst h <;>
      simp [cellTriA, cellTriB]

theorem cellTriA_mem {f : ℝ → ℝ → ℝ} {i j : ℕ} (hi : i < 25) (hj : j < 25) :
    cellTriA f i j ∈ meshTriangles f := by
  simp only [meshTriangles, List.mem_flatMap, List.mem_range, resolution]
  exact ⟨i, hi, j, hj, List.mem_cons_self _ _⟩

/-- The directional-light ratio is at most √6 = ‖(1,1,2)‖ (Cauchy–Schwarz
against the unnormalized light direction). -/
theorem dirLight_ratio_le (a b c : ℝ) :
    (a + b + c * 2) / Real.sqrt (a * a + b * b + c * c) ≤ Real.sqrt 6 := by
  have hS0 : (0 : ℝ) ≤ a * a + b * b + c * c :=
    add_nonneg (add_nonneg (mul_self_nonneg a) (mul_self_nonneg b)) (mul_self_nonneg c)
  rcases eq_or_lt_of_le (Real.sqrt_nonneg (a * a + b * b + c * c)) with h0 | hpos
  · rw [← h0, div_zero]
    exact Real.sqrt_nonneg 6
  · rw [div_le_iff₀ hpos, ← Real.sqrt_mul (by norm_num : (0:ℝ) ≤ 6)]
    rcases le_or_lt (a + b + c * 2) 0 with hd | hd
    · exact hd.trans (Real.sqrt_nonneg _)
    · rw [Real.le_sqrt' hd]
      nlinarith [sq_nonneg (a - b), sq_nonneg (a + b - c)]

/-- The paraboloid scalar field `f(x,y) = x² + y²` (source line 36). -/
noncomputable def paraboloidF : ℝ → ℝ → ℝ := paraboloidFn.f

/-- Claim C4 counterexample: the first triangle of grid cell (0,0) of the
paraboloid mesh is a mesh triangle whose computed light intensity exceeds 1. -/
theorem lightIntensity_gt_one_cex :
    cellTriA paraboloidF 0 0 ∈ meshTriangles paraboloidF ∧
    1 < lightIntensity (cellTriA paraboloidF 0 0) := by
  refine ⟨cellTriA_mem (by norm_num) (by norm_num), ?_⟩
  have hT : triNormal (cellTriA paraboloidF 0 0) =
      ⟨1536 / 15625, 1536 / 15625, 16 / 625⟩ := by
    simp only [cellTriA, triNormal, paraboloidF, paraboloidFn, meshStep, meshRange,
      resolution, Nat.cast_zero, Nat.cast_ofNat]
    norm_num
  unfold lightIntensity
  rw [hT]
  have hSval : ((1536 : ℝ) / 15625 * (1536 / 15625) + 1536 / 15625 * (1536 / 15625)
      + 16 / 625 * (16 / 625)) = 4878592 / 244140625 := by norm_num
  have hs : Real.sqrt (4878592 / 244140625) < 3872 / 15625 := by
    rw [Real.sqrt_lt' (by norm_num)]
    norm_num
  have hspos : (0 : ℝ) < Real.sqrt (4878592 / 244140625) := by
    rw [Real.sqrt_pos]
    norm_num
  have hdiv : (1 : ℝ) <
      ((1536 : ℝ) / 15625 + 1536 / 15625 + 16 / 625 * 2) / Real.sqrt (4878592 / 244140625) := by
    rw [one_lt_div hspos]
    calc Real.sqrt (4878592 / 244140625) < 3872 / 15625 := hs
    _ = 1536 / 15625 + 1536 / 15625 + 16 / 625 * 2 := by norm_num
  simp only [hSval]
  rw [lt_max_iff]
  right
  nlinarith [hdiv]

/-- Claim C4 (amended): for every triangle — any vertex positions — the
computed light intensity is at least 0.2 (the floor) and at most
0.5 + 0.5·√6 ≈ 1.72; the originally claimed upper bound of 1.0 fails. -/
theorem lightIntensity_bounds (t : Tri) :
    0.2 ≤ lightIntensity t ∧ lightIntensity t ≤ 0.5 + 0.5 * Real.sqrt 6 := by
  refine ⟨le_max_left _ _, ?_⟩
  unfold lightIntensity
  apply max_le
  · nlinarith [Real.sqrt_nonneg 6]
  · have key := dirLight_ratio_le (triNormal t).x (triNormal t).y (triNormal t).z
    nlinarith [key]

theorem flat_normal_light {t : Tri} (h : t ∈ meshTriangles fun _ _ => (0 : ℝ)) :
    triNormal t = ⟨0, 0, 16 / 625⟩ ∧ lightIntensity t = 3 / 2 := by
  obtain ⟨i, j, hi, hj, hc⟩ := meshTriangles_mem h
  have hn : triNormal t = ⟨0, 0, 16 / 625⟩ := by
    rcases hc with h | h <;> subst h <;>
      · simp only [cellTriA, cellTriB, triNormal, meshStep, meshRange, resolution]
        norm_num
  refine ⟨hn, ?_⟩
  unfold lightIntensity
  rw [hn]
  have hsq : Real.sqrt ((0:ℝ) * 0 + 0 * 0 + 16 / 625 * (16 / 625)) = 16 / 625 := by
    rw [show ((0:ℝ) * 0 + 0 * 0 + 16 / 625 * (16 / 625)) = (16/625 : ℝ) * (16/625) by
      norm_num]
    exact Real.sqrt_mul_self (by norm_num)
  simp only [hsq]
  rw [max_eq_right (by norm_num)]
  norm_num

/-- Claim C5 counterexample: for the flat plane f(x,y) = 0, the first triangle
of grid cell (0,0) is in the mesh and its computed light intensity is 3/2,
not 1 (the light direction (1,1,2) is not normalized, so a +z unit normal
gives dot 2 and intensity 0.5 + 0.5·2 = 1.5). -/
theorem flat_plane_intensity_cex :
    (cellTriA (fun _ _ => (0:ℝ)) 0 0 ∈ meshTriangles fun _ _ => (0:ℝ)) ∧
    lightIntensity (cellTriA (fun _ _ => (0:ℝ)) 0 0) ≠ 1 := by
  have hm : cellTriA (fun _ _ => (0:ℝ)) 0 0 ∈ meshTriangles fun _ _ => (0:ℝ) :=
    cellTriA_mem (by norm_num) (by norm_num)
  refine ⟨hm, ?_⟩
  rw [(flat_normal_light hm).2]
  norm_num

/-- Claim C5 (amended): for the flat plane f(x,y) = 0, every mesh triangle's
normal points in the +z direction (nx = ny = 0, nz > 0), and every triangle's
computed light intensity equals exactly 3/2 — not 1.0 as originally claimed. -/
theorem flat_plane_shading :
    List.Forall (fun t => (triNormal t).x = 0 ∧ (triNormal t).y = 0 ∧
      0 < (triNormal t).z ∧ lightIntensity t = 3 / 2)
      (meshTriangles fun _ _ => (0:ℝ)) := by
  rw [List.forall_iff_forall_mem]
  intro t ht
  obtain ⟨hn, hl⟩ := flat_normal_light ht
  exact ⟨by rw [hn], by rw [hn], by rw [hn]; norm_num, hl⟩

/-- The sort key of a triangle (source lines 202-208): project the
world-space centroid — the average of the three vertices — through
`project3D` and take the resulting depth. -/
noncomputable def centroidDepth (cam : CameraState) (W H : ℝ) (t : Tri) : ℝ :=
  (project3D cam W H ((t.p1.x + t.p2.x + t.p3.x) / 3) ((t.p1.y + t.p2.y + t.p3.y) / 3)
    ((t.p1.z + t.p2.z + t.p3.z) / 3)).depth

/-- The comparator `(a, b) => b.depth - a.depth` (source line 210) as an
ordering relation: `a` may precede `b` exactly when `b`'s centroid depth is
at most `a`'s — depth descending, farthest first. -/
def depthOrder (cam : CameraState) (W H : ℝ) : Tri → Tri → Prop :=
  fun a b => centroidDepth cam W H b ≤ centroidDepth cam W H a

noncomputable instance (cam : CameraState) (W H : ℝ) : DecidableRel (depthOrder cam W H) :=
  fun _ _ => Real.decidableLE _ _

instance (cam : CameraState) (W H : ℝ) : IsTotal Tri (depthOrder cam W H) :=
  ⟨fun _ _ => le_total _ _⟩

instance (cam : CameraState) (W H : ℝ) : IsTrans Tri (depthOrder cam W H) :=
  ⟨fun _ _ _ h1 h2 => le_trans h2 h1⟩

/-- The triangle list in the order `drawSurface` draws it (source line 210):
the mesh sorted by projected centroid depth, descending. -/
noncomputable def sortedTriangles (cam : CameraState) (W H : ℝ) (f : ℝ → ℝ → ℝ) : List Tri :=
  (meshTriangles f).insertionSort (depthOrder cam W H)

theorem sorted_last_min {α : Type*} {R : α → α → Prop} :
    ∀ {l : List α} (hl : l ≠ []), l.Sorted R → ∀ x ∈ l,
      x = l.getLast hl ∨ R x (l.getLast hl)
  | [], hl, _, _, _ => absurd rfl hl
  | [a], _, _, x, hx => by
    simp only [List.mem_singleton] at hx
    subst hx
    exact Or.inl rfl
  | a :: b :: l, _, hs, x, hx => by
    rw [List.sorted_cons] at hs
    obtain ⟨ha, hs2⟩ := hs
    rw [List.getLast_cons (l := b :: l) (by simp)]
    rcases List.mem_cons.mp hx with rfl | hx2
    · exact Or.inr (ha _ (List.getLast_mem _))
    · exact sorted_last_min (by simp) hs2 x hx2

/-- Claim C2: for every camera state, viewport and scalar field, the draw
order of the surface triangles is non-increasing in projected centroid depth,
is a permutation of the mesh, and the last triangle drawn has the minimum
projected centroid depth among all mesh triangles. -/
theorem sortedTriangles_spec (cam : CameraState) (W H : ℝ) (f : ℝ → ℝ → ℝ) :
    (sortedTriangles cam W H f).Sorted (depthOrder cam W H) ∧
    List.Perm (sortedTriangles cam W H f) (meshTriangles f) ∧
    ∃ lt, (sortedTriangles cam W H f).getLast? = some lt ∧
      List.Forall (fun t => centroidDepth cam W H lt ≤ centroidDepth cam W H t)
        (meshTriangles f) := by
  have hperm : List.Perm (sortedTriangles cam W H f) (meshTriangles f) :=
    List.perm_insertionSort (depthOrder cam W H) (meshTriangles f)
  have hsorted : (sortedTriangles cam W H f).Sorted (depthOrder cam W H) :=
    List.sorted_insertionSort (depthOrder cam W H) (meshTriangles f)
  have hne : sortedTriangles cam W H f ≠ [] := by
    intro h
    have hlen := hperm.length_eq
    rw [h, (meshTriangles_shape f).1] at hlen
    simp at hlen
  refine ⟨hsorted, hperm, (sortedTriangles cam W H f).getLast hne,
    List.getLast?_eq_getLast_of_ne_nil hne, ?_⟩
  rw [List.forall_iff_forall_mem]
  intro t ht
  have ht2 : t ∈ sortedTriangles cam W H f := hperm.mem_iff.mpr ht
  rcases sorted_last_min hne hsorted t ht2 with h | h
  · rw [h]
  · exact h

/-- The full mutable state of a `MultivariableChainRuleViz` instance
(constructor lines 9-31). -/
structure VizState where
  cameraAngleX : ℝ
  cameraAngleY : ℝ
  cameraDistance : ℝ
  isDragging : Bool
  lastMouseX : ℝ
  lastMouseY : ℝ
  pointX : ℝ
  pointY : ℝ
  tParam : ℝ
  directionAngle : ℝ
  magnitude : ℝ
  showGrid : Bool
  showCurve : Bool
  showTangentPlane : Bool
  showVectors : Bool
  currentFunction : String

/-- The state set up by the constructor (source lines 9-31). -/
noncomputable def initState : VizState where
  cameraAngleX := 0.3
  cameraAngleY := 0.8
  cameraDistance := 8
  isDragging := false
  lastMouseX := 0
  lastMouseY := 0
  pointX := 0
  pointY := 0
  tParam := Real.pi / 4
  directionAngle := Real.pi / 2
  magnitude := 1
  showGrid := true
  showCurve := true
  showTangentPlane := true
  showVectors := true
  currentFunction := "paraboloid"

/-
Each handler or public mutator returns the updated state together with a
Boolean recording whether the body invoked `this.render()` — that is, whether
the mutation itself issued a drawing pass.
-/

/-- The `mousemove` handler (source lines 471-487): while dragging, apply the
mouse delta to the camera angles, clamp `cameraAngleX` to [−π/2, π/2],
remember the mouse position and re-render; otherwise do nothing. -/
noncomputable def mousemoveHandler (s : VizState) (clientX clientY : ℝ) : VizState × Bool :=
  if s.isDragging then
    let dx := clientX - s.lastMouseX
    let dy := clientY - s.lastMouseY
    ({ s with
        cameraAngleY := s.cameraAngleY + dx * 0.01
        cameraAngleX := max (-(Real.pi / 2)) (min (Real.pi / 2) (s.cameraAngleX + dy * 0.01))
        lastMouseX := clientX
        lastMouseY := clientY }, true)
  else (s, false)

/-- The `wheel` handler (source lines 493-498): add `deltaY * 0.01` to the
camera distance, clamp to [3, 15], and re-render. -/
noncomputable def wheelHandler (s : VizState) (deltaY : ℝ) : VizState × Bool :=
  ({ s with cameraDistance := max 3 (min 15 (s.cameraDistance + deltaY * 0.01)) }, true)

/-- The inherited properties that every plain object literal exposes through
the prototype chain: `this.functions[funcName]` finds these on
`Object.prototype` even though they are not entries of the table, and each
has a truthy value (a function, or for `__proto__` an object). -/
def objectPrototypeProps : List String :=
  ["constructor", "hasOwnProperty", "isPrototypeOf", "propertyIsEnumerable",
   "toLocaleString", "toString", "valueOf", "__proto__",
   "__defineGetter__", "__defineSetter__", "__lookupGetter__", "__lookupSetter__"]

/-- Truthiness of the JS property access `this.functions[funcName]` on the
object literal of lines 34-59: truthy when the key is one of the four own
keys, or an inherited `Object.prototype` property found on the prototype
chain. -/
noncomputable def functionsAccessTruthy (funcName : String) : Bool :=
  (functionsTable.lookup funcName).isSome || decide (funcName ∈ objectPrototypeProps)

/-- Method `setFunction(funcName)` (source lines 533-538): the guard is the
truthiness of the property access `this.functions[funcName]`, which passes
both for the four own keys and for inherited `Object.prototype` properties;
when it passes, `currentFunction` is assigned the key and `render()` runs. -/
noncomputable def setFunction (s : VizState) (funcName : String) : VizState × Bool :=
  if functionsAccessTruthy funcName then
    ({ s with currentFunction := funcName }, true)
  else (s, false)

/-- Entry of `drawSurface` (source lines 166, 181-184): the scalar field it
samples is `this.functions[this.currentFunction]`; when the current key is
not an own table key the accessed value has no `f` closure, so the first
`func.f(x1, y1)` call throws a TypeError — modelled as `none`. -/
noncomputable def drawSurfaceTriangles (s : VizState) : Option (List Tri) :=
  (functionsTable.lookup s.currentFunction).map fun fn => meshTriangles fn.f

/-- Method `setPoint(x, y)` (source lines 540-544). -/
noncomputable def setPoint (s : VizState) (x y : ℝ) : VizState × Bool :=
  ({ s with pointX := x, pointY := y }, true)

/-- Method `setDirection(angle, mag)` (source lines 546-550). -/
noncomputable def setDirection (s : VizState) (angle mag : ℝ) : VizState × Bool :=
  ({ s with directionAngle := angle, magnitude := mag }, true)

/-- Method `toggleGrid()` (source lines 552-555). -/
noncomputable def toggleGrid (s : VizState) : VizState × Bool :=
  ({ s with showGrid := !s.showGrid }, true)

/-- Method `toggleCurve()` (source lines 557-560). -/
noncomputable def toggleCurve (s : VizState) : VizState × Bool :=
  ({ s with showCurve := !s.showCurve }, true)

/-- Method `toggleTangentPlane()` (source lines 562-565). -/
noncomputable def toggleTangentPlane (s : VizState) : VizState × Bool :=
  ({ s with showTangentPlane := !s.showTangentPlane }, true)

/-- Method `toggleVectors()` (source lines 567-570). -/
noncomputable def toggleVectors (s : VizState) : VizState × Bool :=
  ({ s with showVectors := !s.showVectors }, true)

/-- A camera input: a mouse-drag rotation by a pixel delta, or a wheel zoom
by a wheel delta. -/
inductive InputEvent where
  | rotate (dx dy : ℝ)
  | zoom (deltaY : ℝ)

/-- Apply one camera input: a rotation is the dragging `mousemove` handler
fed the mouse position displaced by the delta; a zoom is the wheel handler. -/
noncomputable def applyInput (s : VizState) : InputEvent → VizState
  | .rotate dx dy =>
    (mousemoveHandler { s with isDragging := true } (s.lastMouseX + dx) (s.lastMouseY + dy)).1
  | .zoom d => (wheelHandler s d).1

/-- The clamp invariants of §4.1: pitch in [−π/2, π/2], distance in [3, 15]. -/
def cameraInvariant (s : VizState) : Prop :=
  -(Real.pi / 2) ≤ s.cameraAngleX ∧ s.cameraAngleX ≤ Real.pi / 2 ∧
    3 ≤ s.cameraDistance ∧ s.cameraDistance ≤ 15

theorem applyInput_preserves (s : VizState) (e : InputEvent) (h : cameraInvariant s) :
    cameraInvariant (applyInput s e) := by
  obtain ⟨h1, h2, h3, h4⟩ := h
  cases e with
  | rotate dx dy =>
    refine ⟨le_max_left _ _, ?_, h3, h4⟩
    simp only [applyInput, mousemoveHandler, if_pos rfl]
    exact max_le (by linarith [Real.pi_pos]) (min_le_left _ _)
  | zoom d =>
    exact ⟨h1, h2, le_max_left _ _, max_le (by norm_num) (min_le_left _ _)⟩

theorem foldl_applyInput_preserves (l : List InputEvent) :
    ∀ s : VizState, cameraInvariant s → cameraInvariant (l.foldl applyInput s) := by
  induction l with
  | nil => exact fun s h => h
  | cons e t ih => exact fun s h => ih _ (applyInput_preserves s e h)

/-- Claim C3: starting from the constructor's camera state, after any finite
sequence of rotate (mouse-drag) and zoom (wheel) inputs with arbitrarily
large deltas, the pitch angle is within [−π/2, π/2] and the camera distance
within [3, 15]; since every prefix is also such a sequence, the invariant
holds after every step. -/
theorem camera_clamp_invariant (events : List InputEvent) :
    cameraInvariant (events.foldl applyInput initState) := by
  apply foldl_applyInput_preserves
  refine ⟨?_, ?_, ?_, ?_⟩ <;> simp only [initState] <;>
    [skip; skip; norm_num; norm_num]
  · linarith [Real.pi_pos]
  · linarith [Real.pi_gt_three]

/-- Claim C6 counterexample: at the constructor state (with dragging in
progress for the mouse path), every mutation entry point — zoom, rotate,
function key, point, direction, and each visibility toggle — itself issues a
drawing pass (its render flag is `true`), contradicting the claim that no
drawing operation is issued by the mutation itself. -/
theorem mutators_do_render_cex :
    (wheelHandler initState 100).2 = true ∧
    (mousemoveHandler { initState with isDragging := true } 5 7).2 = true ∧
    (setFunction initState "saddle").2 = true ∧
    (setPoint initState 1 1).2 = true ∧
    (setDirection initState 1 2).2 = true ∧
    (toggleGrid initState).2 = true ∧
    (toggleCurve initState).2 = true ∧
    (toggleTangentPlane initState).2 = true ∧
    (toggleVectors initState).2 = true := by
  refine ⟨rfl, rfl, ?_, rfl, rfl, rfl, rfl, rfl, rfl⟩
  simp [setFunction, functionsAccessTruthy, functionsTable]

/-- Claim C6 (amended): each camera mutation entry point and each
scene-configuration mutator updates only the corresponding state fields —
with camera clamping per §4.1 — but, contrary to the claim, each mutation
itself triggers a re-render (render flag `true`); re-rendering is not left to
the caller. -/
theorem mutators_frame_and_render (s : VizState) (cx cy dw x y ang mag : ℝ) :
    (mousemoveHandler { s with isDragging := true } cx cy =
      ({ s with
          isDragging := true
          cameraAngleY := s.cameraAngleY + (cx - s.lastMouseX) * 0.01
          cameraAngleX :=
            max (-(Real.pi / 2)) (min (Real.pi / 2) (s.cameraAngleX + (cy - s.lastMouseY) * 0.01))
          lastMouseX := cx
          lastMouseY := cy }, true)) ∧
    (-(Real.pi / 2) ≤ (mousemoveHandler { s with isDragging := true } cx cy).1.cameraAngleX ∧
      (mousemoveHandler { s with isDragging := true } cx cy).1.cameraAngleX ≤ Real.pi / 2) ∧
    (wheelHandler s dw =
      ({ s with cameraDistance := max 3 (min 15 (s.cameraDistance + dw * 0.01)) }, true)) ∧
    (3 ≤ (wheelHandler s dw).1.cameraDistance ∧ (wheelHandler s dw).1.cameraDistance ≤ 15) ∧
    setFunction s "paraboloid" = ({ s with currentFunction := "paraboloid" }, true) ∧
    setFunction s "saddle" = ({ s with currentFunction := "saddle" }, true) ∧
    setFunction s "waves" = ({ s with currentFunction := "waves" }, true) ∧
    setFunction s "hill" = ({ s with currentFunction := "hill" }, true) ∧
    setPoint s x y = ({ s with pointX := x, pointY := y }, true) ∧
    setDirection s ang mag = ({ s with directionAngle := ang, magnitude := mag }, true) ∧
    toggleGrid s = ({ s with showGrid := !s.showGrid }, true) ∧
    toggleCurve s = ({ s with showCurve := !s.showCurve }, true) ∧
    toggleTangentPlane s = ({ s with showTangentPlane := !s.showTangentPlane }, true) ∧
    toggleVectors s = ({ s with showVectors := !s.showVectors }, true) := by
  refine ⟨rfl, ⟨?_, ?_⟩, rfl, ⟨?_, ?_⟩, ?_, ?_, ?_, ?_, rfl, rfl, rfl, rfl, rfl, rfl⟩
  · exact le_max_left _ _
  · exact max_le (by linarith [Real.pi_pos]) (min_le_left _ _)
  · exact le_max_left _ _
  · exact max_le (by norm_num) (min_le_left _ _)
  all_goals simp [setFunction, functionsAccessTruthy, functionsTable]

/-- Claim C8 counterexample: `toString` is not one of the four known
scalar-field keys, yet `setFunction` is not a no-op there: the inherited
`Object.prototype.toString` makes the guard `if (this.functions[funcName])`
truthy, so the current-function field is mutated to `toString` and a render
is issued, whose surface pass then has no `f` closure to call — a TypeError,
modelled as `none`. -/
theorem setFunction_toString_not_noop :
    ("toString" ∉ (["paraboloid", "saddle", "waves", "hill"] : List String)) ∧
    setFunction initState "toString" =
      ({ initState with currentFunction := "toString" }, true) ∧
    drawSurfaceTriangles { initState with currentFunction := "toString" } = none := by
  refine ⟨by decide, ?_, ?_⟩
  · simp [setFunction, functionsAccessTruthy, functionsTable, objectPrototypeProps]
  · simp [drawSurfaceTriangles, functionsTable]

/-- Claim C8 (amended): `setFunction` called with a string key that is
neither one of the known scalar-field keys `paraboloid`, `saddle`, `waves`,
`hill` nor an inherited `Object.prototype` property is a no-op: the state is
returned unchanged and no drawing is performed.  For inherited-property keys
such as `toString` the guard passes instead: the key is assigned and the
triggered render throws. -/
theorem setFunction_unknown_noop (s : VizState) (k : String)
    (h : k ∉ (["paraboloid", "saddle", "waves", "hill"] : List String))
    (hp : k ∉ objectPrototypeProps) :
    setFunction s k = (s, false) := by
  simp only [List.mem_cons, List.not_mem_nil, or_false, not_or] at h
  obtain ⟨h1, h2, h3, h4⟩ := h
  have e1 : (k == "paraboloid") = false := beq_eq_false_iff_ne.mpr h1
  have e2 : (k == "saddle") = false := beq_eq_false_iff_ne.mpr h2
  have e3 : (k == "waves") = false := beq_eq_false_iff_ne.mpr h3
  have e4 : (k == "hill") = false := beq_eq_false_iff_ne.mpr h4
  have ep : decide (k ∈ objectPrototypeProps) = false := decide_eq_false hp
  simp [setFunction, functionsAccessTruthy, functionsTable, List.lookup,
    e1, e2, e3, e4, ep]

theorem setFunction_unknown_noop_witness :
    (("torus" ∉ (["paraboloid", "saddle", "waves", "hill"] : List String)) ∧
      "torus" ∉ objectPrototypeProps) ∧
    setFunction initState "torus" = (initState, false) :=
  ⟨⟨by decide, by decide⟩,
    setFunction_unknown_noop initState "torus" (by decide) (by decide)⟩

/-- The record returned by `getChainRuleValues` (source lines 438-447). -/
structure ChainRuleValues where
  pointX : ℝ
  pointY : ℝ
  z : ℝ
  dzdx : ℝ
  dzdy : ℝ
  dxdt : ℝ
  dydt : ℝ
  dzdt : ℝ

/-- Method `getCurveDerivative()` (source lines 72-77): the derivative of the
parametric line, `(magnitude·cos(directionAngle), magnitude·sin(directionAngle))`. -/
noncomputable def getCurveDerivative (s : VizState) : ℝ × ℝ :=
  (s.magnitude * Real.cos s.directionAngle, s.magnitude * Real.sin s.directionAngle)

/-- Method `getChainRuleValues()` (source lines 430-448): look up the current
function, evaluate it and its partials at the point, combine with the curve
derivative by the chain rule.  The function reads state only (it is embedded
as a pure function of the state); an unknown current-function key is modelled
as `none`. -/
noncomputable def getChainRuleValues (s : VizState) : Option ChainRuleValues :=
  (functionsTable.lookup s.currentFunction).map fun fn =>
    let z := fn.f s.pointX s.pointY
    let dzdx := fn.dfdx s.pointX s.pointY
    let dzdy := fn.dfdy s.pointX s.pointY
    let deriv := getCurveDerivative s
    let dzdt := dzdx * deriv.1 + dzdy * deriv.2
    { pointX := s.pointX, pointY := s.pointY, z := z, dzdx := dzdx, dzdy := dzdy,
      dxdt := deriv.1, dydt := deriv.2, dzdt := dzdt }

/-- Claim C9: whenever the current function key resolves to a table entry,
`getChainRuleValues` returns dxdt = m·cos θ, dydt = m·sin θ and
dzdt = ∂f/∂x·dxdt + ∂f/∂y·dydt — the multivariable chain rule — together
with the point, height and partials, and (being a pure function of the
state) mutates nothing. -/
theorem getChainRuleValues_correct (s : VizState) (fn : SurfaceFun)
    (h : functionsTable.lookup s.currentFunction = some fn) :
    getChainRuleValues s = some
      { pointX := s.pointX
        pointY := s.pointY
        z := fn.f s.pointX s.pointY
        dzdx := fn.dfdx s.pointX s.pointY
        dzdy := fn.dfdy s.pointX s.pointY
        dxdt := s.magnitude * Real.cos s.directionAngle
        dydt := s.magnitude * Real.sin s.directionAngle
        dzdt := fn.dfdx s.pointX s.pointY * (s.magnitude * Real.cos s.directionAngle)
          + fn.dfdy s.pointX s.pointY * (s.magnitude * Real.sin s.directionAngle) } := by
  simp [getChainRuleValues, h, getCurveDerivative]

theorem getChainRuleValues_correct_witness :
    functionsTable.lookup initState.currentFunction = some paraboloidFn ∧
    getChainRuleValues initState = some
      { pointX := initState.pointX
        pointY := initState.pointY
        z := paraboloidFn.f initState.pointX initState.pointY
        dzdx := paraboloidFn.dfdx initState.pointX initState.pointY
        dzdy := paraboloidFn.dfdy initState.pointX initState.pointY
        dxdt := initState.magnitude * Real.cos initState.directionAngle
        dydt := initState.magnitude * Real.sin initState.directionAngle
        dzdt := paraboloidFn.dfdx initState.pointX initState.pointY
            * (initState.magnitude * Real.cos initState.directionAngle)
          + paraboloidFn.dfdy initState.pointX initState.pointY
            * (initState.magnitude * Real.sin initState.directionAngle) } :=
  ⟨rfl, getChainRuleValues_correct initState paraboloidFn rfl⟩

/-- Two-argument arctangent, as JavaScript's `Math.atan2(y, x)`: the argument
of the complex number x + iy. -/
noncomputable def atan2 (y x : ℝ) : ℝ := Complex.arg { re := x, im := y }

/-- Screen-space difference of two points. -/
def sub2 (a b : ℝ × ℝ) : ℝ × ℝ := (a.1 - b.1, a.2 - b.2)

/-- Screen-space dot product. -/
def dot2 (a b : ℝ × ℝ) : ℝ := a.1 * b.1 + a.2 * b.2

/-- Screen-space Euclidean length. -/
noncomputable def norm2 (a : ℝ × ℝ) : ℝ := Real.sqrt (a.1 * a.1 + a.2 * a.2)

/-- The two arrowhead stroke endpoints drawn from the projected end point
(source lines 377-393): at angle `atan2` of the projected delta offset by
∓π/6, backed off by 10 pixels. -/
noncomputable def arrowheadStrokes (p1 p2 : ℝ × ℝ) : (ℝ × ℝ) × (ℝ × ℝ) :=
  let angle := atan2 (p2.2 - p1.2) (p2.1 - p1.1)
  let arrowLength : ℝ := 10
  let arrowAngle := Real.pi / 6
  ((p2.1 - arrowLength * Real.cos (angle - arrowAngle),
      p2.2 - arrowLength * Real.sin (angle - arrowAngle)),
    (p2.1 - arrowLength * Real.cos (angle + arrowAngle),
      p2.2 - arrowLength * Real.sin (angle + arrowAngle)))

/-- The four screen points drawn by `drawArrow3D` (source lines 365-394):
the projected shaft endpoints and the two arrowhead stroke endpoints. -/
structure ArrowDraw where
  p1 : ℝ × ℝ
  p2 : ℝ × ℝ
  h1 : ℝ × ℝ
  h2 : ℝ × ℝ

/-- Method `drawArrow3D(x1, y1, z1, x2, y2, z2)` (source lines 365-394): project
both endpoints, draw the shaft, then the two arrowhead strokes. -/
noncomputable def drawArrow3D (cam : CameraState) (W H x1 y1 z1 x2 y2 z2 : ℝ) : ArrowDraw :=
  let q1 := project3D cam W H x1 y1 z1
  let q2 := project3D cam W H x2 y2 z2
  let hs := arrowheadStrokes (q1.x, q1.y) (q2.x, q2.y)
  { p1 := (q1.x, q1.y), p2 := (q2.x, q2.y), h1 := hs.1, h2 := hs.2 }

theorem arrowheadStrokes_spec (p1 p2 : ℝ × ℝ) (hd : sub2 p2 p1 ≠ (0, 0)) :
    norm2 (sub2 p2 (arrowheadStrokes p1 p2).1) = 10 ∧
    norm2 (sub2 p2 (arrowheadStrokes p1 p2).2) = 10 ∧
    dot2 (sub2 p2 (arrowheadStrokes p1 p2).1) (sub2 p2 p1) =
      10 * norm2 (sub2 p2 p1) * Real.cos (Real.pi / 6) ∧
    dot2 (sub2 p2 (arrowheadStrokes p1 p2).2) (sub2 p2 p1) =
      10 * norm2 (sub2 p2 p1) * Real.cos (Real.pi / 6) := by
  set dx := p2.1 - p1.1 with hdx
  set dy := p2.2 - p1.2 with hdy
  set z : ℂ := { re := dx, im := dy } with hzdef
  have hz : z ≠ 0 := by
    intro h
    apply hd
    have hre := congrArg Complex.re h
    have him := congrArg Complex.im h
    simp only [hzdef, Complex.zero_re, Complex.zero_im] at hre him
    simp only [sub2, Prod.mk.injEq]
    exact ⟨hre, him⟩
  set θ := atan2 dy dx with hθdef
  have hcos : Real.cos θ = dx / Complex.abs z := Complex.cos_arg hz
  have hsin : Real.sin θ = dy / Complex.abs z := Complex.sin_arg z
  have habs : Complex.abs z = Real.sqrt (dx * dx + dy * dy) := by
    rw [Complex.abs_apply, Complex.normSq_apply]
  have hr0 : 0 < Complex.abs z := AbsoluteValue.pos Complex.abs hz
  have hrr : dx * dx + dy * dy = Complex.abs z * Complex.abs z := by
    rw [habs, Real.mul_self_sqrt (add_nonneg (mul_self_nonneg dx) (mul_self_nonneg dy))]
  have hlen : ∀ φ : ℝ, norm2 (10 * Real.cos φ, 10 * Real.sin φ) = 10 := by
    intro φ
    unfold norm2
    have : 10 * Real.cos φ * (10 * Real.cos φ) + 10 * Real.sin φ * (10 * Real.sin φ)
        = (10 : ℝ) ^ 2 := by
      have hpy := Real.sin_sq_add_cos_sq φ
      nlinarith [hpy]
    rw [this, Real.sqrt_sq (by norm_num)]
  have hsub1 : sub2 p2 (arrowheadStrokes p1 p2).1 =
      (10 * Real.cos (θ - Real.pi / 6), 10 * Real.sin (θ - Real.pi / 6)) := by
    simp only [arrowheadStrokes, sub2, atan2, hθdef, hzdef, hdx, hdy, Prod.mk.injEq]
    constructor <;> ring
  have hsub2 : sub2 p2 (arrowheadStrokes p1 p2).2 =
      (10 * Real.cos (θ + Real.pi / 6), 10 * Real.sin (θ + Real.pi / 6)) := by
    simp only [arrowheadStrokes, sub2, atan2, hθdef, hzdef, hdx, hdy, Prod.mk.injEq]
    constructor <;> ring
  have hdvec : sub2 p2 p1 = (dx, dy) := rfl
  have hnormd : norm2 (dx, dy) = Complex.abs z := by
    rw [habs]
    rfl
  refine ⟨by rw [hsub1]; exact hlen _, by rw [hsub2]; exact hlen _, ?_, ?_⟩
  · rw [hsub1, hdvec, hnormd]
    simp only [dot2]
    rw [Real.cos_sub, Real.sin_sub, hcos, hsin, Real.cos_pi_div_six, Real.sin_pi_div_six]
    have hrne : Complex.abs z ≠ 0 := ne_of_gt hr0
    field_simp
    linear_combination (20 * Real.sqrt 3) * hrr
  · rw [hsub2, hdvec, hnormd]
    simp only [dot2]
    rw [Real.cos_add, Real.sin_add, hcos, hsin, Real.cos_pi_div_six, Real.sin_pi_div_six]
    have hrne : Complex.abs z ≠ 0 := ne_of_gt hr0
    field_simp
    linear_combination (20 * Real.sqrt 3) * hrr

/-- Claim C7: whenever the projected endpoints of an arrow are distinct, each
of the two arrowhead strokes drawn from the projected end point has length
exactly 10 pixels, and each makes an angle of exactly π/6 with the
screen-space shaft direction: its dot product with the shaft delta equals
10·‖delta‖·cos(π/6). -/
theorem drawArrow3D_arrowhead (cam : CameraState) (W H x1 y1 z1 x2 y2 z2 : ℝ)
    (hd : sub2 (drawArrow3D cam W H x1 y1 z1 x2 y2 z2).p2
      (drawArrow3D cam W H x1 y1 z1 x2 y2 z2).p1 ≠ (0, 0)) :
    norm2 (sub2 (drawArrow3D cam W H x1 y1 z1 x2 y2 z2).p2
      (drawArrow3D cam W H x1 y1 z1 x2 y2 z2).h1) = 10 ∧
    norm2 (sub2 (drawArrow3D cam W H x1 y1 z1 x2 y2 z2).p2
      (drawArrow3D cam W H x1 y1 z1 x2 y2 z2).h2) = 10 ∧
    dot2 (sub2 (drawArrow3D cam W H x1 y1 z1 x2 y2 z2).p2
        (drawArrow3D cam W H x1 y1 z1 x2 y2 z2).h1)
      (sub2 (drawArrow3D cam W H x1 y1 z1 x2 y2 z2).p2
        (drawArrow3D cam W H x1 y1 z1 x2 y2 z2).p1) =
      10 * norm2 (sub2 (drawArrow3D cam W H x1 y1 z1 x2 y2 z2).p2
        (drawArrow3D cam W H x1 y1 z1 x2 y2 z2).p1) * Real.cos (Real.pi / 6) ∧
    dot2 (sub2 (drawArrow3D cam W H x1 y1 z1 x2 y2 z2).p2
        (drawArrow3D cam W H x1 y1 z1 x2 y2 z2).h2)
      (sub2 (drawArrow3D cam W H x1 y1 z1 x2 y2 z2).p2
        (drawArrow3D cam W H x1 y1 z1 x2 y2 z2).p1) =
      10 * norm2 (sub2 (drawArrow3D cam W H x1 y1 z1 x2 y2 z2).p2
        (drawArrow3D cam W H x1 y1 z1 x2 y2 z2).p1) * Real.cos (Real.pi / 6) :=
  arrowheadStrokes_spec _ _ hd

/-- The arrowhead scenario of the spec: start (0,0,0), end (1,0,0), default
camera ⟨0.3, 0.8, 8⟩, canvas 900×700: the projected endpoints are distinct
(the screen delta is nonzero), so the two arrowhead strokes each have length
10 and subtend exactly π/6 from the shaft direction. -/
theorem drawArrow3D_arrowhead_witness :
    (sub2 (drawArrow3D ⟨0.3, 0.8, 8⟩ 900 700 0 0 0 1 0 0).p2
      (drawArrow3D ⟨0.3, 0.8, 8⟩ 900 700 0 0 0 1 0 0).p1 ≠ (0, 0)) ∧
    (norm2 (sub2 (drawArrow3D ⟨0.3, 0.8, 8⟩ 900 700 0 0 0 1 0 0).p2
      (drawArrow3D ⟨0.3, 0.8, 8⟩ 900 700 0 0 0 1 0 0).h1) = 10 ∧
    norm2 (sub2 (drawArrow3D ⟨0.3, 0.8, 8⟩ 900 700 0 0 0 1 0 0).p2
      (drawArrow3D ⟨0.3, 0.8, 8⟩ 900 700 0 0 0 1 0 0).h2) = 10 ∧
    dot2 (sub2 (drawArrow3D ⟨0.3, 0.8, 8⟩ 900 700 0 0 0 1 0 0).p2
        (drawArrow3D ⟨0.3, 0.8, 8⟩ 900 700 0 0 0 1 0 0).h1)
      (sub2 (drawArrow3D ⟨0.3, 0.8, 8⟩ 900 700 0 0 0 1 0 0).p2
        (drawArrow3D ⟨0.3, 0.8, 8⟩ 900 700 0 0 0 1 0 0).p1) =
      10 * norm2 (sub2 (drawArrow3D ⟨0.3, 0.8, 8⟩ 900 700 0 0 0 1 0 0).p2
        (drawArrow3D ⟨0.3, 0.8, 8⟩ 900 700 0 0 0 1 0 0).p1) * Real.cos (Real.pi / 6) ∧
    dot2 (sub2 (drawArrow3D ⟨0.3, 0.8, 8⟩ 900 700 0 0 0 1 0 0).p2
        (drawArrow3D ⟨0.3, 0.8, 8⟩ 900 700 0 0 0 1 0 0).h2)
      (sub2 (drawArrow3D ⟨0.3, 0.8, 8⟩ 900 700 0 0 0 1 0 0).p2
        (drawArrow3D ⟨0.3, 0.8, 8⟩ 900 700 0 0 0 1 0 0).p1) =
      10 * norm2 (sub2 (drawArrow3D ⟨0.3, 0.8, 8⟩ 900 700 0 0 0 1 0 0).p2
        (drawArrow3D ⟨0.3, 0.8, 8⟩ 900 700 0 0 0 1 0 0).p1) * Real.cos (Real.pi / 6)) := by
  have hpos : 0 < (sub2 (drawArrow3D ⟨0.3, 0.8, 8⟩ 900 700 0 0 0 1 0 0).p2
      (drawArrow3D ⟨0.3, 0.8, 8⟩ 900 700 0 0 0 1 0 0).p1).1 := by
    simp only [drawArrow3D, project3D, sub2]
    norm_num
    have hc8 : 0 < Real.cos (4 / 5) :=
      Real.cos_pos_of_mem_Ioo (Set.mem_Ioo.mpr
        ⟨by nlinarith [Real.pi_gt_three], by nlinarith [Real.pi_gt_three]⟩)
    have hden : 0 < Real.sin (4 / 5) * Real.cos (3 / 10) + 8 := by
      nlinarith [Real.neg_one_le_sin (4 / 5 : ℝ), Real.sin_le_one (4 / 5 : ℝ),
        Real.neg_one_le_cos (3 / 10 : ℝ), Real.cos_le_one (3 / 10 : ℝ)]
    exact mul_pos hc8 (div_pos (by norm_num) hden)
  have hd : sub2 (drawArrow3D ⟨0.3, 0.8, 8⟩ 900 700 0 0 0 1 0 0).p2
      (drawArrow3D ⟨0.3, 0.8, 8⟩ 900 700 0 0 0 1 0 0).p1 ≠ (0, 0) := by
    intro h
    rw [h] at hpos
    exact lt_irrefl 0 hpos
  exact ⟨hd, drawArrow3D_arrowhead ⟨0.3, 0.8, 8⟩ 900 700 0 0 0 1 0 0 hd⟩

end ChainRuleViz
